import Mathlib

/-!
Verification of the WebVox client SDK (event relay and SFU room manager)
against its design specification.  The JavaScript source is shallowly
embedded: the `EventEmitter` registry becomes an association list from
event names to ordered handler-id lists, `emit` is modelled with the
exact JavaScript `Array.prototype.forEach` semantics (length captured at
the start, element presence re-checked at each index on the live array),
and each `SFUManager` method becomes a pure function from the manager
state, the method's arguments and the server acknowledgement to the new
state, the list of emitted wire messages and the settled result.
-/

namespace WebVox

/-! ## EventEmitter (src/utils/EventEmitter.js)

Handlers are identified by `Nat` ids (JavaScript compares callbacks by
reference identity, which ids model).  The events map is an association
list with unique keys; `Map.set` on a fresh key appends, preserving
JavaScript `Map` insertion order. -/

abbrev EvMap := List (String × List Nat)

/-- Models `this.events.get(event)` and `this.events.has(event)`. -/
def lookupEv : EvMap → String → Option (List Nat)
  | [], _ => none
  | (k, v) :: rest, e => if k == e then some v else lookupEv rest e

/-- Models `this.events.set(event, v)` when the key is already present:
replace in place, keeping insertion order. -/
def setEv : EvMap → String → List Nat → EvMap
  | [], _, _ => []
  | (k, v) :: rest, e, nv => if k == e then (k, nv) :: rest else (k, v) :: setEv rest e nv

/-- Models `this.events.delete(event)`. -/
def delEv : EvMap → String → EvMap
  | [], _ => []
  | (k, v) :: rest, e => if k == e then rest else (k, v) :: delEv rest e

/-- Models `EventEmitter.on` (`onEv`: `on` is reserved in Lean): create the bucket if absent, then push. -/
def onEv (evs : EvMap) (e : String) (h : Nat) : EvMap :=
  match lookupEv evs e with
  | none => evs ++ [(e, [h])]
  | some cbs => setEv evs e (cbs ++ [h])

/-- Models `EventEmitter.off`: remove the first matching callback (indexOf +
splice); delete the bucket when it becomes empty. -/
def off (evs : EvMap) (e : String) (h : Nat) : EvMap :=
  match lookupEv evs e with
  | none => evs
  | some cbs =>
      let cbs2 := cbs.erase h
      if cbs2.isEmpty then delEv evs e else setEv evs e cbs2

/-- A handler's observable effect on the emitter: the `off` calls it
performs when invoked (sufficient to model removal during dispatch;
a pure handler performs none). -/
abbrev HandlerBeh := Nat → List (String × Nat)

/-- A handler that never touches the emitter. -/
def pureBeh : HandlerBeh := fun _ => []

def applyOffs (evs : EvMap) (offs : List (String × Nat)) : EvMap :=
  offs.foldl (fun m p => off m p.1 p.2) evs

/-- The body of `emit`'s `callbacks.forEach`: JavaScript captures the
length once, then at each index `k` re-reads the live array (the same
array object `off` splices; once emptied its bucket may be deleted, in
which case the array is empty) and skips `k` when it is no longer a
valid index.  `fuel` is `len - k`; the returned list records the
invocations in order. -/
def emitLoop (beh : HandlerBeh) (e : String) : Nat → Nat → EvMap → List Nat → EvMap × List Nat
  | 0, _, evs, acc => (evs, acc)
  | fuel + 1, k, evs, acc =>
      match ((lookupEv evs e).getD []).get? k with
      | some cb => emitLoop beh e fuel (k + 1) (applyOffs evs (beh cb)) (acc ++ [cb])
      | none => emitLoop beh e fuel (k + 1) evs acc

/-- Models `EventEmitter.emit`: returns `false` with no invocations when no
bucket exists, otherwise iterates the live callback array and returns
`true`.  (Each invocation is wrapped in try/catch in the source, so a
throwing handler cannot alter the control flow modelled here.) -/
def emit (beh : HandlerBeh) (evs : EvMap) (e : String) : EvMap × List Nat × Bool :=
  match lookupEv evs e with
  | none => (evs, [], false)
  | some cbs =>
      let r := emitLoop beh e cbs.length 0 evs []
      (r.1, r.2, true)

/-- Subscribing a sequence of handlers in order. -/
def subscribeAll (evs : EvMap) (e : String) (hs : List Nat) : EvMap :=
  hs.foldl (fun m h => onEv m e h) evs

/-! ## SFUManager (src/managers/SFUManager.js)

JavaScript values appearing in wire payloads and acknowledgements are
modelled by `JVal`; objects the SDK forwards verbatim (RTP/DTLS
parameters, application data) are opaque references `objRef n`.  Each
method becomes a pure function of the manager state, the arguments and
the server acknowledgement, returning the new state, the emitted wire
messages (event name plus payload, field names included) and the
settled result of the returned promise. -/

/-- A JavaScript value as it appears in payloads: `objRef` stands for an
arbitrary object forwarded without interpretation. -/
inductive JVal
  | null
  | bool (b : Bool)
  | str (s : String)
  | num (n : Int)
  | objRef (id : Nat)
deriving DecidableEq, Repr

/-- JavaScript truthiness of a `JVal`. -/
def JVal.truthy : JVal → Bool
  | .null => false
  | .bool b => b
  | .str s => !(s == "")
  | .num n => !(n == 0)
  | .objRef _ => true

/-- JavaScript truthiness of a nullable string (`null`/`undefined` and
the empty string are falsy). -/
def strTruthy : Option String → Bool
  | none => false
  | some s => !(s == "")

/-- A nullable string as a payload value. -/
def optStr : Option String → JVal
  | none => .null
  | some s => .str s

/-- The payload of a socket message: an object literal with named
fields, a value passed through as-is, or nothing (callback only). -/
inductive Payload
  | fields (fs : List (String × JVal))
  | raw (v : JVal)
  | empty
deriving DecidableEq, Repr

/-- One `socket.emit` message: event name and payload. -/
structure WireMsg where
  event : String
  payload : Payload
deriving DecidableEq, Repr

/-- A server acknowledgement: `nullish` is `null`/`undefined`; an object
carries an optional `error` field (absent = `none`) and its remaining
fields. -/
inductive AckResp
  | nullish
  | obj (error : Option String) (fields : List (String × JVal))
deriving DecidableEq, Repr

/-- Truthiness of the acknowledgement itself (objects are truthy). -/
def AckResp.truthy : AckResp → Bool
  | .nullish => false
  | .obj _ _ => true

/-- Truthiness of `response.error` (only read after a truthiness check
on `response`, mirroring the short-circuiting source). -/
def AckResp.errorTruthy : AckResp → Bool
  | .nullish => false
  | .obj e _ => strTruthy e

/-- Value of `response?.error` via optional chaining. -/
def AckResp.errOpt : AckResp → Option String
  | .nullish => none
  | .obj e _ => e

/-- Lookup of a non-error field of the acknowledgement object
(`response.id`, `response.kind`, ...); absent fields read `undefined`,
modelled as `.null`. -/
def AckResp.field (ack : AckResp) (name : String) : JVal :=
  match ack with
  | .nullish => .null
  | .obj _ fs => ((fs.find? (fun p => p.1 == name)).map Prod.snd).getD .null

/-- The check `response && !response.error` (falsy response is failure). -/
def ackOkStrict (ack : AckResp) : Bool := ack.truthy && !ack.errorTruthy

/-- The check `!response || !response.error` (falsy response is success). -/
def ackOkLenient (ack : AckResp) : Bool := !ack.truthy || !ack.errorTruthy

/-- The message of `response?.error || dflt`. -/
def ackErrMsg (ack : AckResp) (dflt : String) : String :=
  match ack.errOpt with
  | some s => if s == "" then dflt else s
  | none => dflt

/-- How the promise (or synchronous call) settles. -/
inductive OpResult
  | ok (r : AckResp)
  | okObj (fs : List (String × JVal))
  | err (msg : String)
  | connError (msg : String) (service : String)
  | retUndefined
deriving DecidableEq, Repr

/-- `true` when the operation settled successfully. -/
def OpResult.isResolved : OpResult → Bool
  | .ok _ => true
  | .okObj _ => true
  | .retUndefined => true
  | _ => false

/-- The `SFUManager` fields the claims concern. -/
structure SFUState where
  isConnected : Bool
  currentRoom : Option String
  currentParticipantId : Option String
deriving DecidableEq, Repr

/-- The constructor's initial state. -/
def SFUState.init : SFUState :=
  { isConnected := false, currentRoom := none, currentParticipantId := none }

/-- Outcome of one method call: new state, emitted socket messages in
order, and the settled result. -/
structure SFUOut where
  state : SFUState
  emitted : List WireMsg
  result : OpResult
deriving DecidableEq, Repr

/-- `SFUManager.connect`: early resolve when already connected;
otherwise a `connect-sfu` round trip that sets `isConnected` on a
truthy `response.success` and rejects with a `ConnectionError`
otherwise. -/
def connect (s : SFUState) (ack : AckResp) : SFUOut :=
  if s.isConnected then ⟨s, [], .retUndefined⟩
  else
    let msg : WireMsg := ⟨"connect-sfu", .empty⟩
    if (ack.field "success").truthy then
      ⟨{ s with isConnected := true }, [msg], .retUndefined⟩
    else
      ⟨s, [msg], .connError (ackErrMsg ack "SFU connection failed") "SFU"⟩

/-- `SFUManager.disconnect`: clears the three state fields (handler
teardown is modelled by `disconnectTrace` below). -/
def disconnect (s : SFUState) : SFUOut :=
  ⟨{ s with isConnected := false, currentRoom := none, currentParticipantId := none },
   [], .retUndefined⟩

/-- `SFUManager.joinRoom`: throws a `ConnectionError` when not
connected; otherwise a `join-room` round trip recording room and
participant on `response && !response.error`. -/
def joinRoom (s : SFUState) (roomId participantId : String) (language : Option String)
    (ack : AckResp) : SFUOut :=
  if !s.isConnected then
    ⟨s, [], .connError "Not connected to SFU. Call connect() first." "SFU"⟩
  else
    let msg : WireMsg := ⟨"join-room",
      .fields [("roomId", .str roomId), ("participantId", .str participantId),
               ("language", optStr language)]⟩
    if ackOkStrict ack then
      ⟨{ s with currentRoom := some roomId, currentParticipantId := some participantId },
       [msg], .ok ack⟩
    else
      ⟨s, [msg], .err (ackErrMsg ack "Failed to join room")⟩

/-- `SFUManager.leaveRoom`: early return when not in a room; otherwise
emits `leave-room` and unconditionally clears room and participant,
resolving whatever the acknowledgement was. -/
def leaveRoom (s : SFUState) (ack : AckResp) : SFUOut :=
  if !(strTruthy s.currentRoom) then ⟨s, [], .retUndefined⟩
  else
    let msg : WireMsg := ⟨"leave-room",
      .fields [("roomId", optStr s.currentRoom),
               ("participantId", optStr s.currentParticipantId)]⟩
    ⟨{ s with currentRoom := none, currentParticipantId := none }, [msg], .ok ack⟩

/-- `SFUManager.getRouterCapabilities`: `roomId || this.currentRoom`
fallback, validation throw when the target is falsy, then a strict-check
round trip. -/
def getRouterCapabilities (s : SFUState) (roomId : Option String) (ack : AckResp) : SFUOut :=
  let targetRoomId := if strTruthy roomId then roomId else s.currentRoom
  if !(strTruthy targetRoomId) then
    ⟨s, [], .err "Room ID is required to get router capabilities"⟩
  else
    let msg : WireMsg := ⟨"get-router-capabilities", .fields [("roomId", optStr targetRoomId)]⟩
    if ackOkStrict ack then ⟨s, [msg], .ok ack⟩
    else ⟨s, [msg], .err (ackErrMsg ack "Failed to get router capabilities")⟩

/-- `SFUManager.setRtpCapabilities`: lenient check (`!response ||
!response.error`), rejecting with the bare server error otherwise. -/
def setRtpCapabilities (s : SFUState) (rtpCapabilities : JVal) (ack : AckResp) : SFUOut :=
  let msg : WireMsg := ⟨"set-rtp-capabilities", .fields [("rtpCapabilities", rtpCapabilities)]⟩
  if ackOkLenient ack then ⟨s, [msg], .ok ack⟩
  else ⟨s, [msg], .err (ack.errOpt.getD "")⟩

/-- `SFUManager.createTransport`: the wire field is named `type` (the
server's vocabulary), not `direction`; strict check; resolves with the
acknowledgement unchanged. -/
def createTransport (s : SFUState) (direction : String) (ack : AckResp) : SFUOut :=
  let msg : WireMsg := ⟨"create-transport", .fields [("type", .str direction)]⟩
  if ackOkStrict ack then ⟨s, [msg], .ok ack⟩
  else ⟨s, [msg], .err (ackErrMsg ack "Failed to create transport")⟩

/-- `SFUManager.connectTransport`: lenient check, like
`setRtpCapabilities`. -/
def connectTransport (s : SFUState) (transportId : String) (dtlsParameters : JVal)
    (ack : AckResp) : SFUOut :=
  let msg : WireMsg := ⟨"connect-transport",
    .fields [("transportId", .str transportId), ("dtlsParameters", dtlsParameters)]⟩
  if ackOkLenient ack then ⟨s, [msg], .ok ack⟩
  else ⟨s, [msg], .err (ack.errOpt.getD "")⟩

/-- `SFUManager.createProducer`: requires `response && response.id`;
normalizes the server's `{id}` to `{producerId}`. -/
def createProducer (s : SFUState) (transportId kind : String)
    (rtpParameters appData : JVal) (ack : AckResp) : SFUOut :=
  let msg : WireMsg := ⟨"create-producer",
    .fields [("transportId", .str transportId), ("kind", .str kind),
             ("rtpParameters", rtpParameters), ("appData", appData)]⟩
  if ack.truthy && (ack.field "id").truthy then
    ⟨s, [msg], .okObj [("producerId", ack.field "id")]⟩
  else ⟨s, [msg], .err (ackErrMsg ack "Failed to create producer")⟩

/-- `SFUManager.createConsumer`: requires `response && response.id`;
renames the server's `id` to `consumerId`, forwarding the rest. -/
def createConsumer (s : SFUState) (producerParticipantId producerId : String)
    (ack : AckResp) : SFUOut :=
  let msg : WireMsg := ⟨"create-consumer",
    .fields [("producerParticipantId", .str producerParticipantId),
             ("producerId", .str producerId)]⟩
  if ack.truthy && (ack.field "id").truthy then
    ⟨s, [msg], .okObj [("consumerId", ack.field "id"), ("producerId", ack.field "producerId"),
                       ("kind", ack.field "kind"), ("rtpParameters", ack.field "rtpParameters"),
                       ("type", ack.field "type")]⟩
  else ⟨s, [msg], .err (ackErrMsg ack "Failed to create consumer")⟩

/-- `SFUManager.pauseProducer`: resolves with the acknowledgement
unconditionally (the executor has no `reject` parameter). -/
def pauseProducer (s : SFUState) (producerId : String) (ack : AckResp) : SFUOut :=
  ⟨s, [⟨"pause-producer", .fields [("producerId", .str producerId)]⟩], .ok ack⟩

/-- `SFUManager.resumeProducer`: resolves unconditionally. -/
def resumeProducer (s : SFUState) (producerId : String) (ack : AckResp) : SFUOut :=
  ⟨s, [⟨"resume-producer", .fields [("producerId", .str producerId)]⟩], .ok ack⟩

/-- `SFUManager.closeProducer`: resolves unconditionally. -/
def closeProducer (s : SFUState) (producerId : String) (ack : AckResp) : SFUOut :=
  ⟨s, [⟨"close-producer", .fields [("producerId", .str producerId)]⟩], .ok ack⟩

/-- `SFUManager.setAudioState`: emits with no room-membership check. -/
def setAudioState (s : SFUState) (muted : Bool) : SFUOut :=
  ⟨s, [⟨"audio-state-changed", .fields [("muted", .bool muted)]⟩], .retUndefined⟩

/-- `SFUManager.setVideoState`: emits with no room-membership check. -/
def setVideoState (s : SFUState) (muted : Bool) : SFUOut :=
  ⟨s, [⟨"video-state-changed", .fields [("muted", .bool muted)]⟩], .retUndefined⟩

/-- `SFUManager.sendChatMessage`: early return when `!this.currentRoom`. -/
def sendChatMessage (s : SFUState) (message : String) : SFUOut :=
  if !(strTruthy s.currentRoom) then ⟨s, [], .retUndefined⟩
  else ⟨s, [⟨"send-chat-message", .fields [("message", .str message)]⟩], .retUndefined⟩

/-- `SFUManager.broadcastTranscript`: guarded; sends both `transcript`
and `text` for compatibility. -/
def broadcastTranscript (s : SFUState) (text : String) (isFinal : Bool)
    (language : String) : SFUOut :=
  if !(strTruthy s.currentRoom) then ⟨s, [], .retUndefined⟩
  else
    ⟨s, [⟨"broadcast-transcript",
      .fields [("roomId", optStr s.currentRoom),
               ("participantId", optStr s.currentParticipantId),
               ("transcript", .str text), ("text", .str text),
               ("isFinal", .bool isFinal), ("language", .str language)]⟩],
     .retUndefined⟩

/-- `SFUManager.sendTranslation`: guarded one-way message. -/
def sendTranslation (s : SFUState) (text sourceLanguage targetLanguage : String) : SFUOut :=
  if !(strTruthy s.currentRoom) then ⟨s, [], .retUndefined⟩
  else
    ⟨s, [⟨"translation",
      .fields [("text", .str text), ("sourceLanguage", .str sourceLanguage),
               ("targetLanguage", .str targetLanguage)]⟩], .retUndefined⟩

/-- `SFUManager.changeLanguage`: guarded one-way message. -/
def changeLanguage (s : SFUState) (language : String) : SFUOut :=
  if !(strTruthy s.currentRoom) then ⟨s, [], .retUndefined⟩
  else ⟨s, [⟨"language-change", .fields [("language", .str language)]⟩], .retUndefined⟩

/-- `SFUManager.setParticipantSpeaking`: guarded one-way message. -/
def setParticipantSpeaking (s : SFUState) (speaking : Bool) : SFUOut :=
  if !(strTruthy s.currentRoom) then ⟨s, [], .retUndefined⟩
  else ⟨s, [⟨"participant-speaking", .fields [("speaking", .bool speaking)]⟩], .retUndefined⟩

/-- `SFUManager.playParticipantTranslation`: guarded; the argument is
forwarded as the payload itself. -/
def playParticipantTranslation (s : SFUState) (translationData : JVal) : SFUOut :=
  if !(strTruthy s.currentRoom) then ⟨s, [], .retUndefined⟩
  else ⟨s, [⟨"participant-translation-play", .raw translationData⟩], .retUndefined⟩

/-- `SFUManager.getRoomParticipants`: throws when not in a room, then a
strict-check round trip with no payload. -/
def getRoomParticipants (s : SFUState) (ack : AckResp) : SFUOut :=
  if !(strTruthy s.currentRoom) then ⟨s, [], .err "Not in a room"⟩
  else
    let msg : WireMsg := ⟨"room-participants", .empty⟩
    if ackOkStrict ack then ⟨s, [msg], .ok ack⟩
    else ⟨s, [msg], .err (ackErrMsg ack "Failed to get room participants")⟩

/-! ## The action order inside `disconnect`

`disconnect` performs, in source order: `isConnected = false`,
`currentRoom = null`, `currentParticipantId = null`, then
`_removeEventHandlers()` (one `socket.off` per tracked event followed by
`eventHandlers.clear()`), then `removeAllListeners()` on the relay.  The
trace records these primitive actions in that order, for the handler
events currently tracked in `eventHandlers`. -/

inductive DAct
  | setConnectedFalse
  | clearRoom
  | clearParticipant
  | socketOff (event : String)
  | clearHandlerMap
  | removeAllRelayListeners
deriving DecidableEq, Repr

/-- The sequence of state-relevant actions `disconnect` performs, given
the events with tracked socket handlers. -/
def disconnectTrace (handlerEvents : List String) : List DAct :=
  [.setConnectedFalse, .clearRoom, .clearParticipant]
    ++ handlerEvents.map DAct.socketOff
    ++ [.clearHandlerMap, .removeAllRelayListeners]

/-- Actions clearing the connected/room/participant state fields. -/
def DAct.isClear : DAct → Bool
  | .setConnectedFalse => true
  | .clearRoom => true
  | .clearParticipant => true
  | _ => false

/-- Actions tearing down the installed socket event listeners
(`socket.off` calls and the `eventHandlers` map clear). -/
def DAct.isTeardown : DAct → Bool
  | .socketOff _ => true
  | .clearHandlerMap => true
  | _ => false

/-- Every `p`-action of the trace occurs strictly before every
`q`-action: no `q`-action is followed (at or after it) by a `p`-action,
i.e. from the first `q`-action on, no `p`-action appears. -/
def allBefore (p q : DAct → Bool) (t : List DAct) : Bool :=
  (t.dropWhile (fun a => !q a)).all (fun a => !p a)

/-! ## One step of the manager

`runOp` dispatches a method call (with its arguments and, where the
method awaits one, the server acknowledgement) to the function above;
`stepOp` is the induced state transition. -/

inductive SFUOp
  | opConnect (ack : AckResp)
  | opDisconnect
  | opJoinRoom (roomId participantId : String) (language : Option String) (ack : AckResp)
  | opLeaveRoom (ack : AckResp)
  | opGetRouterCapabilities (roomId : Option String) (ack : AckResp)
  | opSetRtpCapabilities (rtpCapabilities : JVal) (ack : AckResp)
  | opCreateTransport (direction : String) (ack : AckResp)
  | opConnectTransport (transportId : String) (dtlsParameters : JVal) (ack : AckResp)
  | opCreateProducer (transportId kind : String) (rtpParameters appData : JVal) (ack : AckResp)
  | opCreateConsumer (producerParticipantId producerId : String) (ack : AckResp)
  | opPauseProducer (producerId : String) (ack : AckResp)
  | opResumeProducer (producerId : String) (ack : AckResp)
  | opCloseProducer (producerId : String) (ack : AckResp)
  | opSetAudioState (muted : Bool)
  | opSetVideoState (muted : Bool)
  | opSendChatMessage (message : String)
  | opBroadcastTranscript (text : String) (isFinal : Bool) (language : String)
  | opSendTranslation (text sourceLanguage targetLanguage : String)
  | opChangeLanguage (language : String)
  | opSetParticipantSpeaking (speaking : Bool)
  | opPlayParticipantTranslation (translationData : JVal)
  | opGetRoomParticipants (ack : AckResp)

def runOp (s : SFUState) : SFUOp → SFUOut
  | .opConnect ack => connect s ack
  | .opDisconnect => disconnect s
  | .opJoinRoom r p l ack => joinRoom s r p l ack
  | .opLeaveRoom ack => leaveRoom s ack
  | .opGetRouterCapabilities r ack => getRouterCapabilities s r ack
  | .opSetRtpCapabilities c ack => setRtpCapabilities s c ack
  | .opCreateTransport d ack => createTransport s d ack
  | .opConnectTransport t d ack => connectTransport s t d ack
  | .opCreateProducer t k r a ack => createProducer s t k r a ack
  | .opCreateConsumer pp pid ack => createConsumer s pp pid ack
  | .opPauseProducer pid ack => pauseProducer s pid ack
  | .opResumeProducer pid ack => resumeProducer s pid ack
  | .opCloseProducer pid ack => closeProducer s pid ack
  | .opSetAudioState m => setAudioState s m
  | .opSetVideoState m => setVideoState s m
  | .opSendChatMessage m => sendChatMessage s m
  | .opBroadcastTranscript t f l => broadcastTranscript s t f l
  | .opSendTranslation t sl tl => sendTranslation s t sl tl
  | .opChangeLanguage l => changeLanguage s l
  | .opSetParticipantSpeaking b => setParticipantSpeaking s b
  | .opPlayParticipantTranslation d => playParticipantTranslation s d
  | .opGetRoomParticipants ack => getRoomParticipants s ack

def stepOp (s : SFUState) (op : SFUOp) : SFUState := (runOp s op).state

/-- The room/participant pairing invariant: the participant identifier
is non-null exactly when the room identifier is. -/
def roomParticipantInv (s : SFUState) : Bool :=
  s.currentRoom.isSome == s.currentParticipantId.isSome

/-- The fixed catalogue of server events `_setupEventHandlers` tracks in
`eventHandlers` (so `disconnect` removes a socket listener for each). -/
def SFU_EVENTS : List String :=
  ["participant-joined", "participant-left", "new-producer", "producer-closed",
   "producer-paused", "producer-resumed", "consumer-closed", "consumer-paused",
   "consumer-resumed", "audio-state-changed", "video-state-changed",
   "chat-message-received", "transcription-received", "translation-received",
   "participant-language-changed", "participant-speaking",
   "on-participant-translation-play"]

/-- A dispatch scenario: two handlers are registered for `"message"`;
when invoked, handler `1` unsubscribes itself from `"message"` (exactly
what a `once` wrapper does) and handler `2` does nothing. -/
def selfRemovingFirst : HandlerBeh :=
  fun h => if h == 1 then [("message", 1)] else []

/-! ## Registry lemmas -/

theorem lookupEv_setEv (evs : EvMap) (e : String) (nv : List Nat)
    (h : (lookupEv evs e).isSome) : lookupEv (setEv evs e nv) e = some nv := by
  induction evs with
  | nil => simp [lookupEv] at h
  | cons kv rest ih =>
      by_cases hk : kv.1 == e
      · simp [lookupEv, setEv, hk]
      · simp [lookupEv, setEv, hk] at h ⊢
        exact ih h

theorem lookupEv_append_new (evs : EvMap) (e : String) (v : List Nat)
    (h : lookupEv evs e = none) : lookupEv (evs ++ [(e, v)]) e = some v := by
  induction evs with
  | nil => simp [lookupEv]
  | cons kv rest ih =>
      by_cases hk : kv.1 == e
      · simp [lookupEv, hk] at h
      · simp [lookupEv, hk] at h ⊢
        exact ih h

theorem lookupEv_onEv (evs : EvMap) (e : String) (hid : Nat) :
    lookupEv (onEv evs e hid) e = some ((lookupEv evs e).getD [] ++ [hid]) := by
  unfold onEv
  cases hl : lookupEv evs e with
  | none => simpa using lookupEv_append_new evs e [hid] hl
  | some cbs =>
      have : (lookupEv evs e).isSome := by simp [hl]
      simpa [hl] using lookupEv_setEv evs e (cbs ++ [hid]) this

theorem lookupEv_subscribeAll (e : String) (hs : List Nat) :
    ∀ (evs : EvMap) (cbs : List Nat), lookupEv evs e = some cbs →
      lookupEv (subscribeAll evs e hs) e = some (cbs ++ hs) := by
  induction hs with
  | nil => intro evs cbs h; simpa [subscribeAll] using h
  | cons hid rest ih =>
      intro evs cbs h
      have h1 : lookupEv (onEv evs e hid) e = some (cbs ++ [hid]) := by
        simpa [h] using lookupEv_onEv evs e hid
      have := ih (onEv evs e hid) (cbs ++ [hid]) h1
      simpa [subscribeAll, List.foldl_cons] using this

theorem lookupEv_subscribeAll_fresh (evs : EvMap) (e : String) (hid : Nat) (rest : List Nat)
    (h : lookupEv evs e = none) :
    lookupEv (subscribeAll evs e (hid :: rest)) e = some (hid :: rest) := by
  have h1 : lookupEv (onEv evs e hid) e = some [hid] := by
    simpa [h] using lookupEv_onEv evs e hid
  have := lookupEv_subscribeAll e rest (onEv evs e hid) [hid] h1
  simpa [subscribeAll, List.foldl_cons] using this

/-- With handlers that do not touch the emitter, the dispatch loop
walks the registered array from index `k`, collecting (at most `fuel`)
elements in order and leaving the registry unchanged. -/
theorem emitLoop_pure (e : String) :
    ∀ (fuel k : Nat) (evs : EvMap) (acc : List Nat),
      emitLoop pureBeh e fuel k evs acc
        = (evs, acc ++ ((((lookupEv evs e).getD []).drop k).take fuel)) := by
  intro fuel
  induction fuel with
  | zero => intro k evs acc; simp [emitLoop]
  | succ n ih =>
      intro k evs acc
      set arr := (lookupEv evs e).getD [] with harr
      cases hg : arr.get? k with
      | some cb =>
          have hlt : k < arr.length := by
            have := List.get?_eq_some.mp hg
            exact this.choose
          have hdrop : arr.drop k = arr.get ⟨k, hlt⟩ :: arr.drop (k + 1) :=
            List.drop_eq_getElem_cons hlt
          have hcb : arr.get ⟨k, hlt⟩ = cb := by
            have := List.get?_eq_some.mp hg
            exact this.choose_spec
          rw [hdrop, hcb]
          simp only [emitLoop, ← harr, hg, pureBeh, applyOffs, List.foldl_nil]
          rw [ih (k + 1) evs (acc ++ [cb])]
          simp [List.take_succ_cons]
      | none =>
          have hge : arr.length ≤ k := List.get?_eq_none.mp hg
          have hd1 : arr.drop k = [] := List.drop_eq_nil_of_le hge
          have hd2 : arr.drop (k + 1) = [] := List.drop_eq_nil_of_le (le_trans hge (Nat.le_succ k))
          simp only [emitLoop, ← harr, hg]
          rw [ih (k + 1) evs acc]
          simp [hd1, hd2]

/-- `C1`: for every event name `E` and handler sequence subscribed to
`E` in that order (starting from a registry with no bucket for `E`),
`emit` with non-mutating handlers invokes exactly that sequence in
registration order, returns `true` when at least one handler was
registered and `false` otherwise, and leaves the registry unchanged. -/
theorem emit_invokes_in_registration_order (evs : EvMap) (e : String) (hs : List Nat)
    (hfresh : lookupEv evs e = none) :
    emit pureBeh (subscribeAll evs e hs) e = (subscribeAll evs e hs, hs, !hs.isEmpty) := by
  cases hs with
  | nil =>
      simp [subscribeAll, emit, hfresh]
  | cons hid rest =>
      have hl := lookupEv_subscribeAll_fresh evs e hid rest hfresh
      simp only [emit, hl]
      rw [emitLoop_pure e (hid :: rest).length 0 (subscribeAll evs e (hid :: rest)) []]
      simp [hl]

/-- Witness for `C1` at a concrete registry, event and handler list. -/
theorem emit_invokes_in_registration_order_witness :
    lookupEv [("other", [7])] "message" = none ∧
      emit pureBeh (subscribeAll [("other", [7])] "message" [1, 2, 3]) "message"
        = (subscribeAll [("other", [7])] "message" [1, 2, 3], [1, 2, 3], true) :=
  ⟨by decide,
   emit_invokes_in_registration_order [("other", [7])] "message" [1, 2, 3] (by decide)⟩

/-- `C2` fails on the code: `emit` iterates the live callback array, so
when handler `1` removes itself mid-dispatch, handler `2` — registered
when the publish began and never removed — is skipped (the invocation
list is `[1]` and does not contain `2`), even though `2` is still
registered afterwards. -/
theorem emit_skips_survivor_after_self_removal :
    emit selfRemovingFirst [("message", [1, 2])] "message"
        = ([("message", [2])], [1], true)
      ∧ (emit selfRemovingFirst [("message", [1, 2])] "message").2.1.contains 2 = false := by
  constructor
  · rfl
  · rfl

/-- `C3`: `joinRoom` while not connected rejects with a
`ConnectionError`, emits nothing and leaves the state unchanged, for
every room, participant, language and acknowledgement. -/
theorem joinRoom_rejects_when_not_connected (s : SFUState) (roomId participantId : String)
    (language : Option String) (ack : AckResp) (h : s.isConnected = false) :
    joinRoom s roomId participantId language ack
      = ⟨s, [], .connError "Not connected to SFU. Call connect() first." "SFU"⟩ := by
  simp [joinRoom, h]

/-- Witness for `C3` at the initial state. -/
theorem joinRoom_rejects_when_not_connected_witness :
    SFUState.init.isConnected = false ∧
      joinRoom SFUState.init "room-1" "user-1" none .nullish
        = ⟨SFUState.init, [],
           .connError "Not connected to SFU. Call connect() first." "SFU"⟩ :=
  ⟨rfl, joinRoom_rejects_when_not_connected SFUState.init "room-1" "user-1" none .nullish rfl⟩

/-- `C4` fails on the code: with the standard catalogue of tracked
handlers, `disconnect` does not perform every listener-teardown action
before the state-clearing actions — the trace starts with the three
state clears and only then removes the socket listeners. -/
theorem disconnect_teardown_not_first :
    allBefore DAct.isTeardown DAct.isClear (disconnectTrace SFU_EVENTS) = false := by
  decide

/-- `C4` amended: in `disconnect`, every state-clearing action
(`isConnected`, `currentRoom`, `currentParticipantId`) occurs strictly
before every listener-teardown action (`socket.off` per tracked event
and the `eventHandlers` clear), whatever handlers are tracked — the
opposite of the claimed order. -/
theorem disconnect_clears_before_teardown (handlerEvents : List String) :
    allBefore DAct.isClear DAct.isTeardown (disconnectTrace handlerEvents) = true := by
  cases handlerEvents with
  | nil => decide
  | cons h t =>
      simp [disconnectTrace, allBefore, List.dropWhile, DAct.isClear, DAct.isTeardown,
            List.all_append, List.all_map]

/-- `C5` fails on the code: `setAudioState` performs no room-membership
check — at the initial state (no current room) it still emits its
one-way socket message instead of returning early without emitting. -/
theorem setAudioState_emits_without_room :
    (setAudioState SFUState.init true).emitted
        = [⟨"audio-state-changed", .fields [("muted", .bool true)]⟩]
      ∧ ¬ ((setAudioState SFUState.init true).emitted = []) := by
  exact ⟨rfl, by decide⟩

/-- `C5` amended: the six notification operations other than
`setAudioState`/`setVideoState` validate room membership — when the
current room is falsy they return early emitting nothing, and when in a
room they emit exactly one one-way message with no acknowledgement and
leave the state unchanged; `setAudioState` and `setVideoState` emit
their single one-way message unconditionally. -/
theorem fire_and_forget_guard_room_membership (s : SFUState) (message text language src tgt : String)
    (isFinal speaking muted : Bool) (translationData : JVal) :
    (strTruthy s.currentRoom = false →
        (sendChatMessage s message).emitted = []
      ∧ (broadcastTranscript s text isFinal language).emitted = []
      ∧ (sendTranslation s text src tgt).emitted = []
      ∧ (changeLanguage s language).emitted = []
      ∧ (setParticipantSpeaking s speaking).emitted = []
      ∧ (playParticipantTranslation s translationData).emitted = [])
  ∧ (strTruthy s.currentRoom = true →
        (sendChatMessage s message).emitted.length = 1
      ∧ (broadcastTranscript s text isFinal language).emitted.length = 1
      ∧ (sendTranslation s text src tgt).emitted.length = 1
      ∧ (changeLanguage s language).emitted.length = 1
      ∧ (setParticipantSpeaking s speaking).emitted.length = 1
      ∧ (playParticipantTranslation s translationData).emitted.length = 1)
  ∧ (setAudioState s muted).emitted.length = 1
  ∧ (setVideoState s muted).emitted.length = 1
  ∧ (sendChatMessage s message).state = s
  ∧ (sendChatMessage s message).result = .retUndefined
  ∧ (setAudioState s muted).result = .retUndefined := by
  refine ⟨fun h => ?_, fun h => ?_, ?_, ?_, ?_, ?_, ?_⟩ <;>
    simp [sendChatMessage, broadcastTranscript, sendTranslation, changeLanguage,
          setParticipantSpeaking, playParticipantTranslation, setAudioState, setVideoState,
          *] <;>
    split_ifs <;> simp_all

/-- Witness for `C5` amended, in a room and out of one. -/
theorem fire_and_forget_guard_room_membership_witness :
    ((sendChatMessage SFUState.init "hi").emitted = []
      ∧ (broadcastTranscript SFUState.init "t" false "en").emitted = []
      ∧ (sendTranslation SFUState.init "t" "en" "fr").emitted = []
      ∧ (changeLanguage SFUState.init "fr").emitted = []
      ∧ (setParticipantSpeaking SFUState.init true).emitted = []
      ∧ (playParticipantTranslation SFUState.init .null).emitted = [])
    ∧ (sendChatMessage { SFUState.init with currentRoom := some "r1" } "hi").emitted.length = 1 :=
  ⟨(fire_and_forget_guard_room_membership SFUState.init "hi" "t" "en" "en" "fr"
      false true true .null).1 (by decide),
   ((fire_and_forget_guard_room_membership { SFUState.init with currentRoom := some "r1" }
      "hi" "t" "en" "en" "fr" false true true .null).2.1 (by decide)).1⟩

/-- `C6` fails on the code: `pauseProducer` resolves successfully even
when the acknowledgement carries an error — its promise executor has no
reject path. -/
theorem pauseProducer_resolves_on_error_ack :
    (pauseProducer SFUState.init "p1" (.obj (some "server boom") [])).result
        = .ok (.obj (some "server boom") [])
      ∧ (pauseProducer SFUState.init "p1" (.obj (some "server boom") [])).result.isResolved
          = true
      ∧ ¬ ((pauseProducer SFUState.init "p1" (.obj (some "server boom") [])).result
            = .err "server boom") := by
  exact ⟨rfl, rfl, by decide⟩

/-- `C6` amended: `pauseProducer`, `resumeProducer` and `closeProducer`
are each a single request/acknowledgement round trip that resolves with
the acknowledgement unconditionally — they never reject, even on an
error acknowledgement. -/
theorem producer_control_resolves_unconditionally (s : SFUState) (producerId : String)
    (ack : AckResp) :
    pauseProducer s producerId ack
        = ⟨s, [⟨"pause-producer", .fields [("producerId", .str producerId)]⟩], .ok ack⟩
      ∧ resumeProducer s producerId ack
        = ⟨s, [⟨"resume-producer", .fields [("producerId", .str producerId)]⟩], .ok ack⟩
      ∧ closeProducer s producerId ack
        = ⟨s, [⟨"close-producer", .fields [("producerId", .str producerId)]⟩], .ok ack⟩ :=
  ⟨rfl, rfl, rfl⟩

/-- `C7`: on the null/absent acknowledgement, `setRtpCapabilities` and
`connectTransport` (lenient check `!response || !response.error`)
resolve, while `joinRoom` (connected), `getRouterCapabilities` and
`createTransport` (strict check `response && !response.error`) reject —
the acknowledgement contract is inconsistent. -/
theorem ack_contract_inconsistent_on_null :
    (setRtpCapabilities SFUState.init .null .nullish).result.isResolved = true
  ∧ (connectTransport SFUState.init "t1" .null .nullish).result.isResolved = true
  ∧ (joinRoom { SFUState.init with isConnected := true } "room-1" "user-1" none .nullish).result
      = .err "Failed to join room"
  ∧ (getRouterCapabilities SFUState.init (some "room-1") .nullish).result
      = .err "Failed to get router capabilities"
  ∧ (createTransport SFUState.init "send" .nullish).result
      = .err "Failed to create transport" := by
  exact ⟨rfl, rfl, rfl, rfl, rfl⟩

/-- `C8`: `createTransport` always emits a `create-transport` request
whose field is named `type` carrying the direction, and on a non-error
acknowledgement resolves with the acknowledgement unchanged. -/
theorem createTransport_translates_direction_to_type (s : SFUState) (direction : String)
    (ack : AckResp) :
    (createTransport s direction ack).emitted
        = [⟨"create-transport", .fields [("type", .str direction)]⟩]
      ∧ (ackOkStrict ack = true → (createTransport s direction ack).result = .ok ack) := by
  unfold createTransport
  constructor
  · split_ifs <;> rfl
  · intro h; simp [h]

/-- Witness for `C8` at `"send"` and the acknowledgement `{id: "t1"}`. -/
theorem createTransport_translates_direction_to_type_witness :
    (createTransport SFUState.init "send" (.obj none [("id", .str "t1")])).emitted
        = [⟨"create-transport", .fields [("type", .str "send")]⟩]
      ∧ (createTransport SFUState.init "send" (.obj none [("id", .str "t1")])).result
        = .ok (.obj none [("id", .str "t1")]) :=
  ⟨(createTransport_translates_direction_to_type SFUState.init "send"
      (.obj none [("id", .str "t1")])).1,
   (createTransport_translates_direction_to_type SFUState.init "send"
      (.obj none [("id", .str "t1")])).2 (by decide)⟩

/-- `C9`: the room/participant pairing invariant holds at construction
and is preserved by every manager operation (any method, any arguments,
any acknowledgement). -/
theorem room_participant_invariant_preserved (s : SFUState) (op : SFUOp)
    (h : roomParticipantInv s = true) :
    roomParticipantInv SFUState.init = true ∧ roomParticipantInv (stepOp s op) = true := by
  refine ⟨rfl, ?_⟩
  cases op <;>
    simp [stepOp, runOp, connect, disconnect, joinRoom, leaveRoom, getRouterCapabilities,
          setRtpCapabilities, createTransport, connectTransport, createProducer,
          createConsumer, pauseProducer, resumeProducer, closeProducer, setAudioState,
          setVideoState, sendChatMessage, broadcastTranscript, sendTranslation,
          changeLanguage, setParticipantSpeaking, playParticipantTranslation,
          getRoomParticipants, roomParticipantInv] at h ⊢ <;>
    (try split_ifs) <;> simp_all

/-- Witness for `C9`: a join at a connected, invariant-satisfying state. -/
theorem room_participant_invariant_preserved_witness :
    roomParticipantInv { SFUState.init with isConnected := true } = true ∧
      roomParticipantInv
        (stepOp { SFUState.init with isConnected := true }
          (.opJoinRoom "room-1" "user-1" none (.obj none []))) = true :=
  ⟨by decide,
   (room_participant_invariant_preserved { SFUState.init with isConnected := true }
      (.opJoinRoom "room-1" "user-1" none (.obj none [])) (by decide)).2⟩

/-- `C10` fails on the code: with a null current room,
`getRouterCapabilities` called with the empty-string argument — which is
not null/undefined — still throws the validation error, because the
fallback and the guard test JavaScript truthiness, not nullness. -/
theorem getRouterCapabilities_throws_on_empty_string_arg :
    getRouterCapabilities SFUState.init (some "") .nullish
        = ⟨SFUState.init, [], .err "Room ID is required to get router capabilities"⟩
      ∧ some "" ≠ (none : Option String)
      ∧ SFUState.init.currentRoom = none := by
  exact ⟨rfl, by decide, rfl⟩

/-- `C10` amended: `getRouterCapabilities` falls back to the current
room whenever its argument is falsy (null, undefined or the empty
string), issuing the request with the current room's id; it throws the
validation error exactly when the argument and the current room are both
falsy, and uses the argument itself whenever the argument is truthy. -/
theorem getRouterCapabilities_falls_back_to_current_room (s : SFUState)
    (arg : Option String) (ack : AckResp) :
    (strTruthy arg = false → strTruthy s.currentRoom = false →
        getRouterCapabilities s arg ack
          = ⟨s, [], .err "Room ID is required to get router capabilities"⟩)
  ∧ (strTruthy arg = false → strTruthy s.currentRoom = true →
        (getRouterCapabilities s arg ack).emitted
          = [⟨"get-router-capabilities", .fields [("roomId", optStr s.currentRoom)]⟩])
  ∧ (strTruthy arg = true →
        (getRouterCapabilities s arg ack).emitted
          = [⟨"get-router-capabilities", .fields [("roomId", optStr arg)]⟩]) := by
  refine ⟨fun h1 h2 => ?_, fun h1 h2 => ?_, fun h1 => ?_⟩ <;>
    simp [getRouterCapabilities, *] <;> split_ifs <;> simp_all

/-- Witness for `C10` amended: a null argument falls back to the
current room `"room-1"`. -/
theorem getRouterCapabilities_falls_back_to_current_room_witness :
    (getRouterCapabilities { SFUState.init with currentRoom := some "room-1" } none
        .nullish).emitted
      = [⟨"get-router-capabilities", .fields [("roomId", optStr (some "room-1"))]⟩] :=
  ((getRouterCapabilities_falls_back_to_current_room
      { SFUState.init with currentRoom := some "room-1" } none .nullish).2.1
    (by decide) (by decide))

end WebVox
